import Mathlib

/-!
Verification of the Zhipu vendor adapter (zhipuContentGenerator.ts, the
tool-enabled version) and the AuthDialog escape handling of this repository.
The TypeScript functions are shallowly embedded as executable Lean
definitions.  External library calls are modelled as follows: JSON.parse is a
function parameter (returning Option; a parse exception is modelled as none),
a thrown TypeScript exception is modelled with Except, and the network layer
is abstracted away so that each conversion is a pure function from the
already-received vendor response.
-/

namespace ZhipuAdapter

/-- Structured JSON values, the result type of a successful JSON.parse and
the argument type of JSON.stringify. -/
inductive Json where
  | null : Json
  | bool (b : Bool) : Json
  | num (n : Int) : Json
  | str (s : String) : Json
  | arr (elems : List Json) : Json
  | obj (fields : List (String × Json)) : Json
deriving Repr

/-- Escape of one character inside a JSON string literal. -/
def escapeJsonChar (c : Char) : String :=
  if c = '"' then "\\\""
  else if c = '\\' then "\\\\"
  else if c = '\n' then "\\n"
  else String.singleton c

/-- Escape of a whole string for a JSON string literal. -/
def escapeJsonString (s : String) : String :=
  String.join (s.data.map escapeJsonChar)

/-- A quoted JSON string literal. -/
def jsonQuote (s : String) : String :=
  "\"" ++ escapeJsonString s ++ "\""

mutual

/-- Model of JSON.stringify on structured values. -/
def Json.stringify : Json → String
  | .null => "null"
  | .bool b => if b then "true" else "false"
  | .num n => toString n
  | .str s => jsonQuote s
  | .arr xs => "[" ++ stringifyArray xs ++ "]"
  | .obj fs => "\x7b" ++ stringifyFields fs ++ "\x7d"

/-- Comma-separated serialization of a JSON array body. -/
def stringifyArray : List Json → String
  | [] => ""
  | [x] => Json.stringify x
  | x :: y :: xs => Json.stringify x ++ "," ++ stringifyArray (y :: xs)

/-- Comma-separated serialization of a JSON object body. -/
def stringifyFields : List (String × Json) → String
  | [] => ""
  | [(k, v)] => jsonQuote k ++ ":" ++ Json.stringify v
  | (k, v) :: f :: fs =>
      jsonQuote k ++ ":" ++ Json.stringify v ++ "," ++ stringifyFields (f :: fs)

end

/-- The genai FinishReason values used by the adapter. -/
inductive FinishReason where
  | STOP
  | MAX_TOKENS
  | SAFETY
  | FINISH_REASON_UNSPECIFIED
deriving Repr, DecidableEq

/-- A functionResponse payload in a genai Part: the source distinguishes a
plain string response from a structured one (which it stringifies). -/
inductive StrOrJson where
  | str (s : String) : StrOrJson
  | json (v : Json) : StrOrJson
deriving Repr

/-- A genai Part object: text, functionCall or functionResponse (the shapes
the adapter inspects), or some other part shape it ignores. -/
inductive Part where
  | text (t : String) : Part
  | functionCall (id : Option String) (name : String) (args : Json) : Part
  | functionResponse (id : Option String) (name : String) (response : StrOrJson) : Part
  | other : Part
deriving Repr

/-- An element of a parts array: TypeScript allows a bare string
(typeof part is string) or a Part object. -/
inductive PartU where
  | str (s : String) : PartU
  | part (p : Part) : PartU
deriving Repr

/-- A genai Content: a role with an ordered parts array. -/
structure Content where
  role : String
  parts : List PartU
deriving Repr

/-- One element of request.contents: a bare string, a Content object (has
role and parts fields), or some other value the loop skips. -/
inductive ContentsItem where
  | strItem (s : String) : ContentsItem
  | contentItem (c : Content) : ContentsItem
  | otherItem : ContentsItem
deriving Repr

/-- request.contents is either an array of items or one non-array value;
the source only processes the array case (Array.isArray). -/
inductive RequestContents where
  | single (item : ContentsItem) : RequestContents
  | many (items : List ContentsItem) : RequestContents
deriving Repr

/-- A genai FunctionDeclaration as the adapter reads it: name, optional
description, optional parameters. -/
structure FunctionDeclaration where
  name : String
  description : Option String
  parameters : Option Json
deriving Repr

/-- The tools object of request.config as the adapter reads it: it looks only
at the functionDeclarations field. -/
structure ToolsDecl where
  functionDeclarations : Option (List FunctionDeclaration)
deriving Repr

/-- The part of request.config the adapter reads. -/
structure GenConfig where
  tools : Option ToolsDecl
deriving Repr

/-- The part of GenerateContentParameters the adapter reads. -/
structure GenerateContentParameters where
  contents : RequestContents
  config : Option GenConfig
deriving Repr

/-- An item of a vendor message content array: the tagged union of the
ZhipuMessage interface (type is text, function_call or function_response). -/
inductive ZhipuItem where
  | text (t : String) : ZhipuItem
  | function_call (name : String) (arguments : String) (id : Option String) : ZhipuItem
  | function_response (name : String) (content : String) (id : Option String) : ZhipuItem
deriving Repr, DecidableEq

/-- Vendor message content: a plain string or an array of typed items. -/
inductive ZhipuContent where
  | str (s : String) : ZhipuContent
  | items (xs : List ZhipuItem) : ZhipuContent
deriving Repr, DecidableEq

/-- A vendor chat message (the ZhipuMessage interface). -/
structure ZhipuMessage where
  role : String
  content : ZhipuContent
deriving Repr, DecidableEq

/-- The function field of a vendor tool_call. -/
structure ToolCallFunction where
  name : String
  arguments : String
deriving Repr, DecidableEq

/-- A top-level tool_call of a vendor response. -/
structure ToolCall where
  id : String
  function : ToolCallFunction
deriving Repr, DecidableEq

/-- The function field of an outgoing vendor tool declaration. -/
structure ZhipuToolFunction where
  name : String
  description : String
  parameters : Json
deriving Repr

/-- An outgoing vendor tool declaration (type is always the string
function). -/
structure ZhipuTool where
  type : String
  function : ZhipuToolFunction
deriving Repr

/-- The streaming delta of a vendor choice. -/
structure Delta where
  role : Option String
  content : Option String
deriving Repr, DecidableEq

/-- A choice of a vendor response. -/
structure Choice where
  index : Int
  message : Option ZhipuMessage
  delta : Option Delta
  finish_reason : String
deriving Repr, DecidableEq

/-- The usage counters of a vendor response. -/
structure Usage where
  prompt_tokens : Int
  completion_tokens : Int
  total_tokens : Int
deriving Repr, DecidableEq

/-- The ZhipuResponse envelope (the fields the adapter reads). -/
structure ZhipuResponse where
  id : String
  model : String
  choices : List Choice
  usage : Option Usage
  tool_calls : Option (List ToolCall)
deriving Repr, DecidableEq

/-- The outgoing ZhipuRequest body. -/
structure ZhipuRequest where
  model : String
  messages : List ZhipuMessage
  stream : Bool
  tools : Option (List ZhipuTool)
deriving Repr

/-- The usageMetadata of a generic response. -/
structure UsageMetadata where
  promptTokenCount : Int
  candidatesTokenCount : Int
  totalTokenCount : Int
deriving Repr, DecidableEq

/-- The content of a generic candidate: a role with parts. -/
structure GenContent where
  role : String
  parts : List Part
deriving Repr

/-- A candidate of a generic GenerateContentResponse. -/
structure Candidate where
  index : Int
  content : GenContent
  finishReason : FinishReason
deriving Repr

/-- The generic GenerateContentResponse (the fields the adapter sets). -/
structure GenerateContentResponse where
  responseId : String
  modelVersion : String
  candidates : List Candidate
  usageMetadata : Option UsageMetadata
deriving Repr


/-- Role mapping used by convertToZhipuFormat: user stays user, model becomes
assistant, anything else becomes system. -/
def mapRole (role : String) : String :=
  if role = "user" then "user"
  else if role = "model" then "assistant"
  else "system"

/-- The text collected from one part by the convertToZhipuFormat loop: a bare
string part is pushed unconditionally, a text part only when its text field is
truthy (non-empty); other parts contribute nothing. -/
def textOfPart : PartU → Option String
  | .str s => some s
  | .part (.text t) => if t = "" then none else some t
  | .part _ => none

/-- The functionCall collected from one part by the convertToZhipuFormat
loop. -/
def fcOfPart : PartU → Option (Option String × String × Json)
  | .part (.functionCall id name args) => some (id, name, args)
  | _ => none

/-- The functionResponse collected from one part by the convertToZhipuFormat
loop. -/
def frOfPart : PartU → Option (Option String × String × StrOrJson)
  | .part (.functionResponse id name response) => some (id, name, response)
  | _ => none

/-- One outgoing function_call content item: the structured args are
stringified. -/
def fcItemOf (fc : Option String × String × Json) : ZhipuItem :=
  ZhipuItem.function_call fc.2.1 (Json.stringify fc.2.2) fc.1

/-- One outgoing function_response content item: a string response passes
through, a structured one is stringified. -/
def frItemOf (fr : Option String × String × StrOrJson) : ZhipuItem :=
  ZhipuItem.function_response fr.2.1
    (match fr.2.2 with
      | .str s => s
      | .json v => Json.stringify v)
    fr.1

/-- The vendor messages emitted for one element of request.contents: a bare
string becomes a user text message; a Content object is split into its text,
functionCall and functionResponse parts and yields up to three messages, text
first, then function_call, then function_response, each with the mapped role;
anything else is skipped. -/
def messagesForItem : ContentsItem → List ZhipuMessage
  | .strItem s => [{ role := "user", content := ZhipuContent.str s }]
  | .otherItem => []
  | .contentItem c =>
      let textParts := c.parts.filterMap textOfPart
      let functionCalls := c.parts.filterMap fcOfPart
      let functionResponses := c.parts.filterMap frOfPart
      (if textParts.isEmpty then []
       else [{ role := mapRole c.role, content := ZhipuContent.str (String.join textParts) }])
      ++ (if functionCalls.isEmpty then []
          else [{ role := mapRole c.role, content := ZhipuContent.items (functionCalls.map fcItemOf) }])
      ++ (if functionResponses.isEmpty then []
          else [{ role := mapRole c.role, content := ZhipuContent.items (functionResponses.map frItemOf) }])

/-- Embedding of convertToZhipuFormat: the messages array starts empty and is
only filled inside the Array.isArray branch, so a non-array contents value
yields no messages at all. -/
def convertToZhipuFormat (request : GenerateContentParameters) : List ZhipuMessage :=
  match request.contents with
  | .single _ => []
  | .many items => items.foldl (fun msgs item => msgs ++ messagesForItem item) []

/-- Embedding of extractToolsFromRequest: absent config, absent tools or
absent functionDeclarations yield undefined; otherwise every declaration is
mapped to a vendor tool, defaulting description to the empty string and
parameters to an empty object. -/
def extractToolsFromRequest (request : GenerateContentParameters) :
    Option (List ZhipuTool) :=
  match request.config with
  | none => none
  | some cfg =>
      match cfg.tools with
      | none => none
      | some t =>
          match t.functionDeclarations with
          | none => none
          | some decls =>
              some (decls.map (fun fd =>
                { type := "function",
                  function :=
                    { name := fd.name,
                      description := fd.description.getD "",
                      parameters := fd.parameters.getD (Json.obj []) } }))

/-- The ZhipuRequest body built by generateContent (stream = false) and
generateContentStream (stream = true). -/
def buildZhipuRequest (model : String) (stream : Bool)
    (request : GenerateContentParameters) : ZhipuRequest :=
  { model := model,
    messages := convertToZhipuFormat request,
    stream := stream,
    tools := extractToolsFromRequest request }

/-- Embedding of mapZhipuFinishReason: a switch over the vendor string with a
default case, so it is total and never throws. -/
def mapZhipuFinishReason (zhipuReason : String) : FinishReason :=
  if zhipuReason = "stop" then FinishReason.STOP
  else if zhipuReason = "length" then FinishReason.MAX_TOKENS
  else if zhipuReason = "content_filter" then FinishReason.SAFETY
  else FinishReason.FINISH_REASON_UNSPECIFIED

/-- Sequential map where the body may throw: the embedding of an Array.map
or for-of loop whose body may raise, aborting the whole loop. -/
def exceptMap (f : α → Except ε β) : List α → Except ε (List β)
  | [] => Except.ok []
  | a :: as =>
      match f a with
      | .error e => .error e
      | .ok b =>
          match exceptMap f as with
          | .error e => .error e
          | .ok bs => .ok (b :: bs)

/-- The part built from one vendor message content item by
convertZhipuResponseToParts: the function_call case parses the arguments
string with JSON.parse, which throws on malformed input (there is no
try/catch around this loop in the source). -/
def partOfItem (jsonParse : String → Option Json) : ZhipuItem → Except Unit Part
  | .text t => .ok (Part.text t)
  | .function_call name arguments id =>
      match jsonParse arguments with
      | some v => .ok (Part.functionCall id name v)
      | none => .error ()
  | .function_response name content id =>
      .ok (Part.functionResponse id name (StrOrJson.str content))

/-- The parts built from the content argument of convertZhipuResponseToParts:
undefined and the empty string are falsy and contribute nothing; a non-empty
string becomes one text part; an array is mapped item by item (and may
throw). -/
def contentPartsOf (jsonParse : String → Option Json) :
    Option ZhipuContent → Except Unit (List Part)
  | none => .ok []
  | some (.str s) => .ok (if s = "" then [] else [Part.text s])
  | some (.items xs) => exceptMap (partOfItem jsonParse) xs

/-- The part built from one top-level tool_call by
convertZhipuResponseToParts: a JSON.parse failure on the arguments is caught
and degraded to an empty arguments object. -/
def topLevelToolCallPart (jsonParse : String → Option Json) (tc : ToolCall) : Part :=
  match jsonParse tc.function.arguments with
  | some v => Part.functionCall (some tc.id) tc.function.name v
  | none => Part.functionCall (some tc.id) tc.function.name (Json.obj [])

/-- The parts appended for the top-level tool_calls argument (an absent or
empty array appends nothing). -/
def toolCallParts (jsonParse : String → Option Json) :
    Option (List ToolCall) → List Part
  | none => []
  | some tcs => tcs.map (topLevelToolCallPart jsonParse)

/-- Embedding of convertZhipuResponseToParts: content parts first (a throw
there aborts the call), then the tool_call parts, which never throw. -/
def convertZhipuResponseToParts (jsonParse : String → Option Json)
    (content : Option ZhipuContent) (toolCalls : Option (List ToolCall)) :
    Except Unit (List Part) :=
  match contentPartsOf jsonParse content with
  | .error e => .error e
  | .ok cp => .ok (cp ++ toolCallParts jsonParse toolCalls)

/-- Embedding of convertZhipuContentToParts, which the source defines as
convertZhipuResponseToParts with undefined tool calls. -/
def convertZhipuContentToParts (jsonParse : String → Option Json)
    (content : Option ZhipuContent) : Except Unit (List Part) :=
  convertZhipuResponseToParts jsonParse content none

/-- The usageMetadata copied from vendor usage counters. -/
def mkUsageMetadata (u : Usage) : UsageMetadata :=
  { promptTokenCount := u.prompt_tokens,
    candidatesTokenCount := u.completion_tokens,
    totalTokenCount := u.total_tokens }

/-- One candidate of the non-streaming response (also used by the
end-of-stream flush): parts come from the full message content plus the
top-level tool_calls. -/
def responseCandidateE (jsonParse : String → Option Json)
    (toolCalls : Option (List ToolCall)) (choice : Choice) : Except Unit Candidate :=
  match convertZhipuResponseToParts jsonParse
      (choice.message.map ZhipuMessage.content) toolCalls with
  | .error e => .error e
  | .ok parts =>
      .ok { index := choice.index,
            content := { role := "model", parts := parts },
            finishReason := mapZhipuFinishReason choice.finish_reason }

/-- One candidate of a mid-stream fragment: parts come from the delta content
only, with no tool_calls appended. -/
def streamCandidateE (jsonParse : String → Option Json) (choice : Choice) :
    Except Unit Candidate :=
  match convertZhipuContentToParts jsonParse
      ((choice.delta.bind Delta.content).map ZhipuContent.str) with
  | .error e => .error e
  | .ok parts =>
      .ok { index := choice.index,
            content := { role := "model", parts := parts },
            finishReason := mapZhipuFinishReason choice.finish_reason }

/-- Embedding of the response construction in generateContent (after the
vendor JSON has been received): a throw anywhere inside is caught by the
enclosing catch and re-thrown as a wrapped error, so Except.error here means
generateContent throws. -/
def generateContentConvert (jsonParse : String → Option Json)
    (r : ZhipuResponse) : Except Unit GenerateContentResponse :=
  match exceptMap (responseCandidateE jsonParse r.tool_calls) r.choices with
  | .error e => .error e
  | .ok candidates =>
      .ok { responseId := r.id,
            modelVersion := r.model,
            candidates := candidates,
            usageMetadata := r.usage.map mkUsageMetadata }

/-- Embedding of the mid-stream fragment construction in the streaming
generator (usage counters are copied when present). -/
def buildStreamFragment (jsonParse : String → Option Json)
    (r : ZhipuResponse) : Except Unit GenerateContentResponse :=
  match exceptMap (streamCandidateE jsonParse) r.choices with
  | .error e => .error e
  | .ok candidates =>
      .ok { responseId := r.id,
            modelVersion := r.model,
            candidates := candidates,
            usageMetadata := r.usage.map mkUsageMetadata }

/-- Embedding of the end-of-stream flush fragment construction: it uses the
full message content plus tool_calls and never sets usageMetadata. -/
def buildFinalFragment (jsonParse : String → Option Json)
    (r : ZhipuResponse) : Except Unit GenerateContentResponse :=
  match exceptMap (responseCandidateE jsonParse r.tool_calls) r.choices with
  | .error e => .error e
  | .ok candidates =>
      .ok { responseId := r.id,
            modelVersion := r.model,
            candidates := candidates,
            usageMetadata := none }

/-- Model of the JavaScript startsWith check as a prefix test on the
character sequence. -/
def strStartsWith (s pre : String) : Bool :=
  pre.data.isPrefixOf s.data

/-- Model of the JavaScript slice(n) call: drop the first n characters. -/
def strDrop (s : String) (n : Nat) : String :=
  ⟨s.data.drop n⟩

/-- Split of a character list at every occurrence of a separator character,
keeping empty pieces, as JavaScript split does. -/
def splitChars (c : Char) : List Char → List (List Char)
  | [] => [[]]
  | x :: xs =>
      match splitChars c xs with
      | [] => [[]]
      | g :: gs => if x = c then [] :: g :: gs else (x :: g) :: gs

/-- Model of the JavaScript split call on a one-character separator. -/
def strSplitOn (s : String) (c : Char) : List String :=
  (splitChars c s.data).map (fun l => ⟨l⟩)

/-- JavaScript whitespace for trim (the characters relevant here). -/
def isJsWs (c : Char) : Bool :=
  c = ' ' || c = '\n' || c = '\t' || c = '\r'

/-- Model of the JavaScript trim call: strip leading and trailing
whitespace. -/
def strTrim (s : String) : String :=
  ⟨((s.data.dropWhile isJsWs).reverse.dropWhile isJsWs).reverse⟩

/-- The fragments a yielding try/catch block emits: one on success, none when
the block threw (the catch only logs). -/
def emitted (e : Except Unit GenerateContentResponse) : List GenerateContentResponse :=
  match e with
  | .ok f => [f]
  | .error _ => []

/-- The fragments emitted for the payload of one data line: JSON.parse
(modelled by vendorParse, where none is a parse throw) then the fragment
construction, all inside the try whose catch logs and drops the line. -/
def processDataPayload (jsonParse : String → Option Json)
    (vendorParse : String → Option ZhipuResponse) (data : String) :
    List GenerateContentResponse :=
  match vendorParse data with
  | none => []
  | some r => emitted (buildStreamFragment jsonParse r)

/-- The fragments emitted for one complete line of the stream: only lines
with the data prefix are considered, the sentinel payload is skipped, and the
rest go through the parse-and-build try/catch. -/
def processLine (jsonParse : String → Option Json)
    (vendorParse : String → Option ZhipuResponse) (line : String) :
    List GenerateContentResponse :=
  if strStartsWith line "data: " then
    let data := strDrop line 6
    if data = "[DONE]" then []
    else processDataPayload jsonParse vendorParse data
  else []

/-- The fragments emitted for a list of complete lines, in order. -/
def processLines (jsonParse : String → Option Json)
    (vendorParse : String → Option ZhipuResponse) :
    List String → List GenerateContentResponse
  | [] => []
  | l :: ls => processLine jsonParse vendorParse l
      ++ processLines jsonParse vendorParse ls

/-- Embedding of one iteration of the streaming read loop: the decoded chunk
is appended to the buffer, the buffer is split on newlines, the last piece
(possibly empty) becomes the new buffer, and the complete lines are
processed in order. -/
def processChunk (jsonParse : String → Option Json)
    (vendorParse : String → Option ZhipuResponse) (buffer chunk : String) :
    String × List GenerateContentResponse :=
  let s := buffer ++ chunk
  let lines := strSplitOn s '\n' 
  ((lines.getLast?).getD "", processLines jsonParse vendorParse lines.dropLast)

/-- Embedding of the end-of-stream flush: a blank (all-whitespace) buffer is
falsy and skipped; otherwise the trimmed buffer gets one raw JSON.parse
attempt (no data prefix stripping, no sentinel check) and, when both the
parse and the final fragment construction succeed, one final fragment is
emitted. -/
def flushRemainder (jsonParse : String → Option Json)
    (vendorParse : String → Option ZhipuResponse) (buffer : String) :
    List GenerateContentResponse :=
  if strTrim buffer = "" then []
  else
    match vendorParse (strTrim buffer) with
    | none => []
    | some r => emitted (buildFinalFragment jsonParse r)

/-- Embedding of the whole streaming generator body over a list of decoded
chunks: the read loop followed by the flush of the remaining buffer. -/
def runStream (jsonParse : String → Option Json)
    (vendorParse : String → Option ZhipuResponse) (chunks : List String) :
    List GenerateContentResponse :=
  let p := chunks.foldl
    (fun acc chunk =>
      let r := processChunk jsonParse vendorParse acc.1 chunk
      (r.1, acc.2 ++ r.2))
    ("", [])
  p.2 ++ flushRemainder jsonParse vendorParse p.1

/-- The AuthType values offered or consulted by the dialog. -/
inductive AuthType where
  | USE_OPENAI
  | USE_ZHIPU
  | USE_GEMINI
  | LOGIN_WITH_GOOGLE
deriving Repr, DecidableEq

/-- The persistence scope passed to onSelect (the dialog only ever uses the
User scope). -/
inductive SettingScope where
  | User
deriving Repr, DecidableEq

/-- The merged settings field the escape handler reads. -/
structure MergedSettings where
  selectedAuthType : Option AuthType
deriving Repr, DecidableEq

/-- The AuthDialog state the escape handler reads and writes. -/
structure AuthDialogState where
  errorMessage : Option String
  showOpenAIKeyPrompt : Bool
  showZhipuKeyPrompt : Bool
deriving Repr, DecidableEq

/-- JavaScript truthiness of a string-or-null value: null and the empty
string are falsy. -/
def isTruthyStr : Option String → Bool
  | none => false
  | some s => !(s == "")

/-- The blocking message set when escape is pressed with no auth method
configured. -/
def noAuthMessage : String :=
  "You must select an auth method to proceed. Press Ctrl+C twice to exit."

/-- Embedding of the useInput handler of AuthDialog for an escape key press:
it returns the new dialog state and the onSelect invocation, if any (some
(method, scope) means onSelect was called).  While the OpenAI key prompt is
shown the handler returns immediately; an error message blocks exit; an
unconfigured auth method blocks exit and sets the inline message; otherwise
onSelect is called with undefined and the User scope. -/
def handleEscapeKey (settings : MergedSettings) (st : AuthDialogState) :
    AuthDialogState × Option (Option AuthType × SettingScope) :=
  if st.showOpenAIKeyPrompt then (st, none)
  else if isTruthyStr st.errorMessage then (st, none)
  else
    match settings.selectedAuthType with
    | none => ({ st with errorMessage := some noAuthMessage }, none)
    | some _ => (st, some (none, SettingScope.User))

/-- Model of JSON.parse restricted to the argument strings exercised in this
development: the text of an empty object parses to an empty structured
object, and the other strings used here (such as oops) are invalid JSON and
throw, modelled as none. -/
def jsonParseModel : String → Option Json :=
  fun s => if s = "\x7b\x7d" then some (Json.obj []) else none

/-- A function_call content item whose arguments string is not valid JSON. -/
def badFcItem : ZhipuItem :=
  ZhipuItem.function_call "f" "oops" none

/-- A vendor response whose single choice carries the bad function_call item
inside its message content. -/
def respWithBadItem : ZhipuResponse :=
  { id := "x",
    model := "m",
    choices :=
      [{ index := 0,
         message := some { role := "assistant", content := ZhipuContent.items [badFcItem] },
         delta := none,
         finish_reason := "stop" }],
    usage := none,
    tool_calls := none }

/-- The JSON text of respWithBadItem, used as a buffered stream remainder:
JSON.parse accepts it, but converting its message content throws. -/
def badItemRemainder : String :=
  "\x7b\"id\":\"x\",\"model\":\"m\",\"choices\":[\x7b\"index\":0,\"message\":\x7b\"role\":\"assistant\",\"content\":[\x7b\"type\":\"function_call\",\"function_call\":\x7b\"name\":\"f\",\"arguments\":\"oops\"\x7d\x7d]\x7d,\"finish_reason\":\"stop\"\x7d]\x7d"

/-- Model of the vendor-response JSON.parse (with the TypeScript cast)
restricted to the payload strings exercised in this development. -/
def vendorParseModel : String → Option ZhipuResponse :=
  fun s =>
    if s = badItemRemainder then some respWithBadItem
    else if s = "\x7b\"id\":\"x\",\"model\":\"m\",\"choices\":[]\x7d" then
      some { id := "x", model := "m", choices := [], usage := none, tool_calls := none }
    else none

/-- The demo payload recognised by vendorParseModel as an empty-choices
response. -/
def emptyChoicesPayload : String :=
  "\x7b\"id\":\"x\",\"model\":\"m\",\"choices\":[]\x7d"

/-- A vendor response whose choice has a full message but no delta: the
mid-stream and flush constructions differ on it. -/
def msgOnlyResp : ZhipuResponse :=
  { id := "i",
    model := "m",
    choices :=
      [{ index := 0,
         message := some { role := "assistant", content := ZhipuContent.str "hello" },
         delta := none,
         finish_reason := "stop" }],
    usage := none,
    tool_calls := none }

/-- The fragment the end-of-stream flush builds from msgOnlyResp. -/
def msgOnlyFinalFragment : GenerateContentResponse :=
  { responseId := "i",
    modelVersion := "m",
    candidates :=
      [{ index := 0,
         content := { role := "model", parts := [Part.text "hello"] },
         finishReason := FinishReason.STOP }],
    usageMetadata := none }

/-- The fragment the mid-stream path builds from msgOnlyResp: the delta is
absent, so the parts are empty. -/
def msgOnlyStreamFragment : GenerateContentResponse :=
  { responseId := "i",
    modelVersion := "m",
    candidates :=
      [{ index := 0,
         content := { role := "model", parts := [] },
         finishReason := FinishReason.STOP }],
    usageMetadata := none }

/-- A content whose parts are a functionCall part followed by a text part,
in that order. -/
def fcThenTextContent : Content :=
  { role := "user",
    parts := [PartU.part (Part.functionCall none "f" (Json.obj [])),
              PartU.part (Part.text "hi")] }

/-- The parts of a mid-stream candidate, as a total function (the conversion
of a plain string delta never throws). -/
def partsFromDelta (jsonParse : String → Option Json) (choice : Choice) : List Part :=
  (convertZhipuResponseToParts jsonParse
      ((choice.delta.bind Delta.content).map ZhipuContent.str) none).toOption.getD []

/-- A mid-stream candidate as a total function of the choice. -/
def streamCandidate (jsonParse : String → Option Json) (choice : Choice) : Candidate :=
  { index := choice.index,
    content := { role := "model", parts := partsFromDelta jsonParse choice },
    finishReason := mapZhipuFinishReason choice.finish_reason }

/-- Concatenation of the text carried by a list of parts. -/
def partsTextConcat (ps : List Part) : String :=
  String.join (ps.filterMap fun p =>
    match p with
    | Part.text t => some t
    | _ => none)

/-- Processing a list of lines distributes over append. -/
theorem processLines_append (jp : String → Option Json)
    (vp : String → Option ZhipuResponse) (a b : List String) :
    processLines jp vp (a ++ b) = processLines jp vp a ++ processLines jp vp b := by
  induction a with
  | nil => simp [processLines]
  | cons l ls ih => simp [processLines, ih]

/-- Processing a list of lines is the ordered join of the per-line
fragments. -/
theorem processLines_eq_join (jp : String → Option Json)
    (vp : String → Option ZhipuResponse) (lines : List String) :
    processLines jp vp lines = (lines.map (processLine jp vp)).flatten := by
  induction lines with
  | nil => simp [processLines]
  | cons l ls ih => simp [processLines, ih]

/-- A throwing map where every element in fact succeeds is an ordinary
map. -/
theorem exceptMap_map (f : α → Except ε β) (g : α → β) (l : List α)
    (h : ∀ a ∈ l, f a = .ok (g a)) : exceptMap f l = .ok (l.map g) := by
  induction l with
  | nil => rfl
  | cons a as ih =>
      simp only [exceptMap, h a (by simp), ih (fun x hx => h x (by simp [hx])),
        List.map_cons]

/-- A mid-stream candidate always builds without throwing, because the delta
carries only an optional string. -/
theorem streamCandidateE_eq (jp : String → Option Json) (ch : Choice) :
    streamCandidateE jp ch = .ok (streamCandidate jp ch) := by
  unfold streamCandidateE streamCandidate partsFromDelta convertZhipuContentToParts
  cases h : ch.delta.bind Delta.content with
  | none =>
      simp [convertZhipuResponseToParts, contentPartsOf, toolCallParts, Except.toOption]
  | some s =>
      by_cases hs : s = "" <;>
        simp [convertZhipuResponseToParts, contentPartsOf, toolCallParts,
          Except.toOption, hs]

/-- A mid-stream fragment always builds without throwing, with one candidate
per choice. -/
theorem buildStreamFragment_eq (jp : String → Option Json) (r : ZhipuResponse) :
    buildStreamFragment jp r
      = .ok { responseId := r.id,
              modelVersion := r.model,
              candidates := r.choices.map (streamCandidate jp),
              usageMetadata := r.usage.map mkUsageMetadata } := by
  unfold buildStreamFragment
  rw [exceptMap_map (streamCandidateE jp) (streamCandidate jp) r.choices
    (fun ch _ => streamCandidateE_eq jp ch)]

/-- Claim C6: mapZhipuFinishReason is total over all input strings and never
throws; stop maps to STOP, length to MAX_TOKENS, content_filter to SAFETY,
and every other string to the unspecified finish reason. -/
theorem C6_mapZhipuFinishReason_total (s : String)
    (h1 : s ≠ "stop") (h2 : s ≠ "length") (h3 : s ≠ "content_filter") :
    mapZhipuFinishReason "stop" = FinishReason.STOP
    ∧ mapZhipuFinishReason "length" = FinishReason.MAX_TOKENS
    ∧ mapZhipuFinishReason "content_filter" = FinishReason.SAFETY
    ∧ mapZhipuFinishReason s = FinishReason.FINISH_REASON_UNSPECIFIED := by
  refine ⟨rfl, rfl, rfl, ?_⟩
  simp [mapZhipuFinishReason, h1, h2, h3]

/-- Witness for C6 at the concrete unmapped string tool_calls. -/
theorem C6_witness :
    mapZhipuFinishReason "stop" = FinishReason.STOP
    ∧ mapZhipuFinishReason "length" = FinishReason.MAX_TOKENS
    ∧ mapZhipuFinishReason "content_filter" = FinishReason.SAFETY
    ∧ mapZhipuFinishReason "tool_calls" = FinishReason.FINISH_REASON_UNSPECIFIED :=
  C6_mapZhipuFinishReason_total "tool_calls" (by decide) (by decide) (by decide)

/-- Claim C8: when request.contents is not an array, convertToZhipuFormat
returns an empty message list, so both the non-streaming and the streaming
request bodies carry zero messages. -/
theorem C8_single_contents_zero_messages (model : String) (item : ContentsItem)
    (cfg : Option GenConfig) :
    convertToZhipuFormat { contents := RequestContents.single item, config := cfg } = []
    ∧ (buildZhipuRequest model false
        { contents := RequestContents.single item, config := cfg }).messages = []
    ∧ (buildZhipuRequest model true
        { contents := RequestContents.single item, config := cfg }).messages = [] :=
  ⟨rfl, rfl, rfl⟩

/-- Claim C7: with the dialog list active, escape with no configured auth
method never calls onSelect and sets the inline message; escape with an
error message displayed never calls onSelect; escape with a configured
method and no displayed error calls onSelect with undefined and the User
scope. -/
theorem C7_escape_handling (settings : MergedSettings) (st : AuthDialogState)
    (hprompt : st.showOpenAIKeyPrompt = false) :
    (settings.selectedAuthType = none →
        (handleEscapeKey settings st).2 = none
        ∧ (isTruthyStr st.errorMessage = false →
            (handleEscapeKey settings st).1.errorMessage = some noAuthMessage))
    ∧ (isTruthyStr st.errorMessage = true → handleEscapeKey settings st = (st, none))
    ∧ (∀ a, settings.selectedAuthType = some a →
        isTruthyStr st.errorMessage = false →
        handleEscapeKey settings st = (st, some (none, SettingScope.User))) := by
  unfold handleEscapeKey
  rw [hprompt]
  refine ⟨?_, ?_, ?_⟩
  · intro hna
    by_cases he : isTruthyStr st.errorMessage <;> simp [he, hna]
  · intro he
    simp [he]
  · intro a ha he
    simp [he, ha]

/-- Witness for C7: unconfigured auth, no error message, list active. -/
theorem C7_witness :
    (handleEscapeKey { selectedAuthType := none }
        { errorMessage := none, showOpenAIKeyPrompt := false,
          showZhipuKeyPrompt := false }).2 = none
    ∧ (handleEscapeKey { selectedAuthType := none }
        { errorMessage := none, showOpenAIKeyPrompt := false,
          showZhipuKeyPrompt := false }).1.errorMessage = some noAuthMessage := by
  have h := C7_escape_handling { selectedAuthType := none }
    { errorMessage := none, showOpenAIKeyPrompt := false,
      showZhipuKeyPrompt := false } rfl
  exact ⟨(h.1 rfl).1, (h.1 rfl).2 rfl⟩

/-- Claim C10: a complete line without the data prefix yields no fragment and
does not affect the fragments of the surrounding lines. -/
theorem C10_non_data_line_skipped (jp : String → Option Json)
    (vp : String → Option ZhipuResponse) (line : String)
    (pre post : List String) (h : strStartsWith line "data: " = false) :
    processLine jp vp line = []
    ∧ processLines jp vp (pre ++ line :: post)
        = processLines jp vp pre ++ processLines jp vp post := by
  have h1 : processLine jp vp line = [] := by simp [processLine, h]
  refine ⟨h1, ?_⟩
  rw [processLines_append]
  simp [processLines, h1]

/-- Witness for C10 at a server-sent-event comment line. -/
theorem C10_witness :
    processLine (fun _ => none) (fun _ => none) "event: ping" = [] :=
  (C10_non_data_line_skipped (fun _ => none) (fun _ => none) "event: ping"
    [] [] (by decide)).1

/-- Claim C3: the streaming generator yields exactly one fragment per data
line whose payload parses as a vendor response, in arrival order; the
sentinel data line yields no fragment; a data line with a malformed payload
yields no fragment and does not stop the processing of later lines. -/
theorem C3_stream_line_semantics (jp : String → Option Json)
    (vp : String → Option ZhipuResponse) (lines : List String)
    (line badline : String) (payload : String) (r : ZhipuResponse)
    (hsw : strStartsWith line "data: " = true) (hdrop : strDrop line 6 = payload)
    (hp : vp payload = some r) (hpd : payload ≠ "[DONE]")
    (hbsw : strStartsWith badline "data: " = true)
    (hbad : vp (strDrop badline 6) = none) :
    processLines jp vp lines = (lines.map (processLine jp vp)).flatten
    ∧ (∃ f, processLine jp vp line = [f])
    ∧ processLine jp vp "data: [DONE]" = []
    ∧ processLine jp vp badline = []
    ∧ processLines jp vp (badline :: lines) = processLines jp vp lines := by
  have hskip : processLine jp vp badline = [] := by
    simp [processLine, hbsw, processDataPayload, hbad]
  refine ⟨processLines_eq_join jp vp lines, ?_, ?_, hskip, ?_⟩
  · have hline : processLine jp vp line = emitted (buildStreamFragment jp r) := by
      simp [processLine, hsw, hdrop, hpd, processDataPayload, hp]
    rw [hline, buildStreamFragment_eq]
    exact ⟨_, rfl⟩
  · rfl
  · simp [processLines, hskip]

/-- Witness for C3 at a concrete valid data line and a concrete malformed
data line. -/
theorem C3_witness :
    ∃ f, processLine jsonParseModel vendorParseModel
        ("data: " ++ emptyChoicesPayload) = [f] :=
  (C3_stream_line_semantics jsonParseModel vendorParseModel []
    ("data: " ++ emptyChoicesPayload) "data: nope" emptyChoicesPayload
    { id := "x", model := "m", choices := [], usage := none, tool_calls := none }
    (by decide) (by decide) (by decide) (by decide) (by decide)
    (by decide)).2.1

/-- Claim C9: the end-of-stream flush parses the trimmed raw remainder with
no data prefix stripping and no sentinel check, so a remainder that still
carries the data prefix (JSON.parse rejects any such text) yields no final
fragment; a bare remainder that parses yields the fragment built by the
flush construction, which uses the full message content plus top-level
tool_calls and therefore differs from the mid-stream construction. -/
theorem C9_flush_raw_parse (jp : String → Option Json)
    (vp : String → Option ZhipuResponse) (buffer : String) (r : ZhipuResponse)
    (hjs : ∀ s, strStartsWith s "data: " = true → vp s = none) :
    (strStartsWith (strTrim buffer) "data: " = true →
        flushRemainder jp vp buffer = [])
    ∧ (strTrim buffer ≠ "" → vp (strTrim buffer) = some r →
        flushRemainder jp vp buffer = emitted (buildFinalFragment jp r))
    ∧ buildFinalFragment jp msgOnlyResp = .ok msgOnlyFinalFragment
    ∧ buildStreamFragment jp msgOnlyResp = .ok msgOnlyStreamFragment
    ∧ msgOnlyFinalFragment ≠ msgOnlyStreamFragment := by
  refine ⟨?_, ?_, ?_, ?_, ?_⟩
  · intro hb
    by_cases ht : strTrim buffer = ""
    · simp [flushRemainder, ht]
    · simp [flushRemainder, ht, hjs _ hb]
  · intro ht hv
    simp [flushRemainder, ht, hv]
  · rfl
  · rfl
  · intro h
    simp [msgOnlyFinalFragment, msgOnlyStreamFragment] at h

/-- Witness for C9 at a concrete remainder that still carries the data
prefix and a vendor parse rejecting every data-prefixed text. -/
theorem C9_witness :
    flushRemainder (fun _ => none) (fun _ => none) "data: [DONE]" = [] :=
  (C9_flush_raw_parse (fun _ => none) (fun _ => none) "data: [DONE]"
    msgOnlyResp (fun _ _ => rfl)).1 (by decide)

/-- Claim C4 (amended): every mid-stream fragment builds its parts from the
delta content only, through convertZhipuResponseToParts with no tool_calls;
the end-of-stream flush gives a non-blank remainder one parse attempt and,
when the parse succeeds, emits one final fragment exactly when the final
fragment construction also succeeds (a conversion throw drops it). -/
theorem C4_stream_delta_and_flush (jp : String → Option Json)
    (vp : String → Option ZhipuResponse) (r rf : ZhipuResponse)
    (buffer : String) (hbuf : strTrim buffer ≠ "")
    (hvp : vp (strTrim buffer) = some rf) :
    (∃ f, buildStreamFragment jp r = .ok f
        ∧ f.candidates = r.choices.map (streamCandidate jp)
        ∧ f.responseId = r.id ∧ f.modelVersion = r.model)
    ∧ (∀ choice : Choice, (streamCandidate jp choice).content.parts
        = (convertZhipuResponseToParts jp
            ((choice.delta.bind Delta.content).map ZhipuContent.str)
            none).toOption.getD [])
    ∧ flushRemainder jp vp buffer = emitted (buildFinalFragment jp rf) := by
  refine ⟨⟨_, buildStreamFragment_eq jp r, rfl, rfl, rfl⟩, fun c => rfl, ?_⟩
  simp [flushRemainder, hbuf, hvp]

set_option maxRecDepth 8192 in
/-- Counterexample to claim C4 as stated: this buffered remainder parses as a
vendor response, yet no final fragment is emitted, because converting the
message content throws on the unparsable function_call arguments. -/
theorem C4_counterexample :
    strTrim badItemRemainder ≠ ""
    ∧ vendorParseModel (strTrim badItemRemainder) = some respWithBadItem
    ∧ flushRemainder jsonParseModel vendorParseModel badItemRemainder = [] := by
  refine ⟨by decide, by decide, ?_⟩
  rfl

/-- Witness for the amended C4 at a concrete parsable remainder whose
conversion succeeds. -/
theorem C4_witness :
    flushRemainder jsonParseModel vendorParseModel emptyChoicesPayload
      = emitted (buildFinalFragment jsonParseModel
          { id := "x", model := "m", choices := [], usage := none,
            tool_calls := none }) :=
  (C4_stream_delta_and_flush jsonParseModel vendorParseModel msgOnlyResp
    { id := "x", model := "m", choices := [], usage := none, tool_calls := none }
    emptyChoicesPayload (by decide) (by decide)).2.2

/-- Claim C1 (amended): a top-level tool_call whose arguments fail to parse
degrades to a function-call part with an empty arguments object and does not
throw; but a function_call item inside message content whose arguments fail
to parse throws, aborting the whole conversion (and hence generateContent). -/
theorem C1_toolcall_arguments (jp : String → Option Json)
    (content : Option ZhipuContent) (tcs : List ToolCall) (cp : List Part)
    (hc : contentPartsOf jp content = .ok cp) :
    convertZhipuResponseToParts jp content (some tcs)
        = .ok (cp ++ tcs.map (topLevelToolCallPart jp))
    ∧ (∀ tc : ToolCall, jp tc.function.arguments = none →
        topLevelToolCallPart jp tc
          = Part.functionCall (some tc.id) tc.function.name (Json.obj []))
    ∧ (∀ name arguments id, jp arguments = none →
        partOfItem jp (ZhipuItem.function_call name arguments id) = .error ())
    ∧ (∀ items e tcs2, exceptMap (partOfItem jp) items = .error e →
        convertZhipuResponseToParts jp (some (ZhipuContent.items items)) tcs2
          = .error e) := by
  refine ⟨?_, ?_, ?_, ?_⟩
  · simp [convertZhipuResponseToParts, hc, toolCallParts]
  · intro tc h
    simp [topLevelToolCallPart, h]
  · intro n a i h
    simp [partOfItem, h]
  · intro items e t2 h
    simp [convertZhipuResponseToParts, contentPartsOf, h]

/-- Counterexample to claim C1 as stated: a function_call item inside the
message content whose arguments string is not JSON makes the conversion, and
therefore generateContent, throw instead of degrading to empty arguments. -/
theorem C1_counterexample :
    partOfItem jsonParseModel badFcItem = .error ()
    ∧ convertZhipuResponseToParts jsonParseModel
        (some (ZhipuContent.items [badFcItem])) none = .error ()
    ∧ generateContentConvert jsonParseModel respWithBadItem = .error () :=
  ⟨rfl, rfl, rfl⟩

/-- Witness for the amended C1: text content plus one top-level tool_call
with unparsable arguments yields the text part followed by an
empty-arguments function-call part. -/
theorem C1_witness :
    convertZhipuResponseToParts jsonParseModel (some (ZhipuContent.str "hello"))
        (some [{ id := "id1", function := { name := "g", arguments := "oops" } }])
      = .ok [Part.text "hello",
             Part.functionCall (some "id1") "g" (Json.obj [])] := by
  have h := C1_toolcall_arguments jsonParseModel (some (ZhipuContent.str "hello"))
    [{ id := "id1", function := { name := "g", arguments := "oops" } }]
    [Part.text "hello"] rfl
  rw [h.1]
  rfl

/-- A push-style fold of message lists is the flattening of the per-item
message lists. -/
theorem foldl_append_eq_flatten (f : α → List β) (items : List α) (init : List β) :
    items.foldl (fun msgs item => msgs ++ f item) init
      = init ++ (items.map f).flatten := by
  induction items generalizing init with
  | nil => simp
  | cons a as ih => simp [ih, List.append_assoc]

/-- Claim C2 (amended): convertToZhipuFormat flattens an array of contents
into the per-content vendor messages in content order; every message of one
content carries the mapped role; and the messages of one content come in
exactly three kinds, grouped in the fixed order plain text, function_call,
function_response, regardless of the original order of the parts. -/
theorem C2_flatten_grouped (cfg : Option GenConfig) (items : List ContentsItem)
    (c : Content) (m : ZhipuMessage)
    (hm : m ∈ messagesForItem (ContentsItem.contentItem c)) :
    convertToZhipuFormat { contents := RequestContents.many items, config := cfg }
        = (items.map messagesForItem).flatten
    ∧ m.role = mapRole c.role
    ∧ (∃ ts fs rs, messagesForItem (ContentsItem.contentItem c) = ts ++ fs ++ rs
        ∧ (∀ x ∈ ts, ∃ s, x.content = ZhipuContent.str s)
        ∧ (∀ x ∈ fs, ∃ xs, x.content = ZhipuContent.items xs
              ∧ ∀ it ∈ xs, ∃ n a i, it = ZhipuItem.function_call n a i)
        ∧ (∀ x ∈ rs, ∃ xs, x.content = ZhipuContent.items xs
              ∧ ∀ it ∈ xs, ∃ n a i, it = ZhipuItem.function_response n a i)) := by
  refine ⟨?_, ?_, ?_⟩
  · simp [convertToZhipuFormat, foldl_append_eq_flatten]
  · by_cases h1 : (c.parts.filterMap textOfPart).isEmpty <;>
      by_cases h2 : (c.parts.filterMap fcOfPart).isEmpty <;>
      by_cases h3 : (c.parts.filterMap frOfPart).isEmpty <;>
      simp [messagesForItem, h1, h2, h3] at hm <;>
      rcases hm with rfl | rfl | rfl <;> rfl
  · refine ⟨(if (c.parts.filterMap textOfPart).isEmpty then []
        else [{ role := mapRole c.role,
                content := ZhipuContent.str
                  (String.join (c.parts.filterMap textOfPart)) }]),
      (if (c.parts.filterMap fcOfPart).isEmpty then []
        else [{ role := mapRole c.role,
                content := ZhipuContent.items
                  ((c.parts.filterMap fcOfPart).map fcItemOf) }]),
      (if (c.parts.filterMap frOfPart).isEmpty then []
        else [{ role := mapRole c.role,
                content := ZhipuContent.items
                  ((c.parts.filterMap frOfPart).map frItemOf) }]),
      rfl, ?_, ?_, ?_⟩
    · intro x hx
      by_cases h1 : (c.parts.filterMap textOfPart).isEmpty <;> simp [h1] at hx
      subst hx
      exact ⟨_, rfl⟩
    · intro x hx
      by_cases h2 : (c.parts.filterMap fcOfPart).isEmpty <;> simp [h2] at hx
      subst hx
      refine ⟨_, rfl, ?_⟩
      intro it hit
      rcases List.mem_map.mp hit with ⟨y, _, rfl⟩
      exact ⟨_, _, _, rfl⟩
    · intro x hx
      by_cases h3 : (c.parts.filterMap frOfPart).isEmpty <;> simp [h3] at hx
      subst hx
      refine ⟨_, rfl, ?_⟩
      intro it hit
      rcases List.mem_map.mp hit with ⟨y, _, rfl⟩
      exact ⟨_, _, _, rfl⟩

/-- Counterexample to claim C2 as stated: a content whose functionCall part
precedes its text part still emits the text message first, so the original
part order is not preserved. -/
theorem C2_counterexample :
    convertToZhipuFormat
        { contents := RequestContents.many [ContentsItem.contentItem fcThenTextContent],
          config := none }
      = [{ role := "user", content := ZhipuContent.str "hi" },
         { role := "user",
           content := ZhipuContent.items
             [ZhipuItem.function_call "f" "\x7b\x7d" none] }]
    ∧ ([{ role := "user", content := ZhipuContent.str "hi" },
        { role := "user",
          content := ZhipuContent.items
            [ZhipuItem.function_call "f" "\x7b\x7d" none] }] : List ZhipuMessage)
      ≠ [{ role := "user",
           content := ZhipuContent.items
             [ZhipuItem.function_call "f" "\x7b\x7d" none] },
         { role := "user", content := ZhipuContent.str "hi" }] := by
  refine ⟨rfl, by decide⟩

/-- Witness for the amended C2 at a concrete single-text content. -/
theorem C2_witness :
    ({ role := "user", content := ZhipuContent.str "hi" } : ZhipuMessage).role
      = mapRole "user" :=
  (C2_flatten_grouped none [] { role := "user", parts := [PartU.str "hi"] }
    { role := "user", content := ZhipuContent.str "hi" } (by decide)).2.1

/-- Claim C5: for a content holding only text parts, the forward conversion
emits one text message with the mapped role (user to user, model to
assistant, system to system) whose content is the concatenated original
text, and converting that message content back yields only text parts whose
concatenation is that same original text. -/
theorem C5_text_roundtrip (jp : String → Option Json) (c : Content)
    (m : ZhipuMessage)
    (hparts : ∀ p ∈ c.parts,
      (∃ s, p = PartU.str s) ∨ (∃ t, p = PartU.part (Part.text t)))
    (hm : m ∈ messagesForItem (ContentsItem.contentItem c)) :
    mapRole "user" = "user"
    ∧ mapRole "model" = "assistant"
    ∧ mapRole "system" = "system"
    ∧ m.role = mapRole c.role
    ∧ m.content = ZhipuContent.str (String.join (c.parts.filterMap textOfPart))
    ∧ ∃ ps, convertZhipuResponseToParts jp (some m.content) none = .ok ps
        ∧ (∀ p ∈ ps, ∃ t, p = Part.text t)
        ∧ partsTextConcat ps = String.join (c.parts.filterMap textOfPart) := by
  have hfc : c.parts.filterMap fcOfPart = [] := by
    rw [List.filterMap_eq_nil_iff]
    intro p hp
    rcases hparts p hp with ⟨s, rfl⟩ | ⟨t, rfl⟩ <;> rfl
  have hfr : c.parts.filterMap frOfPart = [] := by
    rw [List.filterMap_eq_nil_iff]
    intro p hp
    rcases hparts p hp with ⟨s, rfl⟩ | ⟨t, rfl⟩ <;> rfl
  by_cases ht : (c.parts.filterMap textOfPart).isEmpty
  · simp [messagesForItem, hfc, hfr, ht] at hm
  · simp [messagesForItem, hfc, hfr, ht] at hm
    subst hm
    refine ⟨rfl, rfl, rfl, rfl, rfl, ?_⟩
    by_cases hempty : String.join (c.parts.filterMap textOfPart) = ""
    · refine ⟨[], ?_, by simp, ?_⟩
      · simp [convertZhipuResponseToParts, contentPartsOf, hempty, toolCallParts]
      · rw [hempty]
        rfl
    · refine ⟨[Part.text (String.join (c.parts.filterMap textOfPart))], ?_, ?_, ?_⟩
      · simp [convertZhipuResponseToParts, contentPartsOf, hempty, toolCallParts]
      · intro p hp
        simp at hp
        subst hp
        exact ⟨_, rfl⟩
      · rfl

/-- Witness for C5 at a concrete model-role content with one text part. -/
theorem C5_witness :
    ∃ ps, convertZhipuResponseToParts (fun _ => none)
        (some (ZhipuContent.str "hi")) none = .ok ps
      ∧ (∀ p ∈ ps, ∃ t, p = Part.text t)
      ∧ partsTextConcat ps
          = String.join
              (({ role := "model", parts := [PartU.part (Part.text "hi")] } :
                  Content).parts.filterMap textOfPart) :=
  (C5_text_roundtrip (fun _ => none)
    { role := "model", parts := [PartU.part (Part.text "hi")] }
    { role := "assistant", content := ZhipuContent.str "hi" }
    (by
      intro p hp
      simp at hp
      subst hp
      exact Or.inr ⟨"hi", rfl⟩)
    (by decide)).2.2.2.2.2

end ZhipuAdapter
